import Mathlib

/-!
Shallow embedding of the resilient-execution and version-resolution layer of
the `node-cli` scaffolding tool (`src/utils/index.ts`).

Modelling conventions:
* JavaScript numbers arising from `Number(segment)` on a version segment are
  modelled as `Option Int`: `some n` is the integer `n`, `none` is `NaN`.
  The segments produced by splitting on `.` that matter here are decimal
  integer literals (possibly signed, possibly empty — `Number("") = 0`);
  every other segment yields `NaN`.
* The `async` runner `loading` is modelled as explicit state passing: the
  module-level mutable `retryCount` is threaded as an argument and returned,
  and the callback is modelled as a function from its invocation index to an
  `Except Unit α` (`.error` = the promise rejects / the callback throws).
  `loading` itself returns `Except Unit _` so that "the runner never throws"
  is a statement, not a typing accident; the spinner is a UI collaborator
  with no algorithmic content and is omitted.
* `axios.get` and the JSON body are modelled by `FetchResult`; accessing
  `.latest` on an `undefined` `dist-tags` throws (a `TypeError`), while a
  present `dist-tags` object without a `latest` key yields `undefined`
  without throwing.
-/

namespace NodeCli

/-- JS `v.split(".")` on the character list of `v`: splitting at every `'.'`,
keeping empty pieces, and `"".split(".") = [""]`. -/
def splitOnDot : List Char → List (List Char)
  | [] => [[]]
  | c :: rest =>
    if c = '.' then [] :: splitOnDot rest
    else
      match splitOnDot rest with
      | g :: gs => (c :: g) :: gs
      | [] => [[c]]

/-- Numeric value of a list of decimal digits, most significant first. -/
def digitsVal (cs : List Char) : Int :=
  cs.foldl (fun acc c => acc * 10 + ((c.toNat : Int) - ('0'.toNat : Int))) 0

/-- Fragment model of JS `Number(s)` for version segments: `""` is `0`, an
optional minus sign followed by decimal digits is that integer, anything
else is `NaN` (modelled as `none`). It agrees exactly with JS `Number` on
possibly empty all-digit segments and on minus-then-digits segments; JS
forms outside that fragment (surrounding whitespace, a plus sign,
exponents, hex, `Infinity`) are conservatively mapped to `NaN` here, so
theorems that quantify over arbitrary strings either restrict their
hypotheses to the all-digit fragment or do not depend on parsing at all. -/
def toNumber (cs : List Char) : Option Int :=
  match cs with
  | [] => some 0
  | c :: t =>
    if c = '-' then
      if t ≠ [] ∧ t.all Char.isDigit then some (-(digitsVal t)) else none
    else if (c :: t).all Char.isDigit then some (digitsVal (c :: t))
    else none

/-- JS strict inequality `a !== b` on numbers: `NaN` is unequal to
everything, itself included. -/
def jsStrictNe : Option Int → Option Int → Bool
  | some x, some y => x ≠ y
  | _, _ => true

/-- JS `a > b` on numbers: any comparison involving `NaN` is false. -/
def jsGt : Option Int → Option Int → Bool
  | some x, some y => x > y
  | _, _ => false

/-- The `pad` closure inside `gt`:
`v.split(".").map(Number).concat(Array(len).fill(0)).slice(0, len)`. -/
def pad (len : Nat) (v : String) : List (Option Int) :=
  ((splitOnDot v.data).map toNumber ++ List.replicate len (some 0)).take len

/-- The `for` loop of `gt`: at the first index where the components differ
under `!==`, return whether `a[i] > b[i]`; if no index differs, false.
Both lists have length `len`, so paired structural recursion is the loop. -/
def cmpLoop : List (Option Int) → List (Option Int) → Bool
  | a :: as, b :: bs => if jsStrictNe a b then jsGt a b else cmpLoop as bs
  | _, _ => false

/-- `gt(v1 = "0.0.0", v2 = "0.0.0", len = 3)` from `src/utils/index.ts`. -/
def gt (v1 : String := "0.0.0") (v2 : String := "0.0.0") (len : Nat := 3) : Bool :=
  cmpLoop (pad len v1) (pad len v2)

/-- Ordinary strict lexicographic comparison of integer lists, most
significant first, used as the independent yardstick for `gt`. -/
def intLexGt : List Int → List Int → Bool
  | a :: as, b :: bs => if a = b then intLexGt as bs else a > b
  | _, _ => false

/-- `loading(options, ...args)` with the module-level `retryCount` threaded
through. `cb i` is the outcome of the `i`-th invocation of the callback in
this logical chain (`.error` = rejects). The result carries the value the
callback produced (`none` = the runner returned `undefined`), the final
value of the global `retryCount`, and the number of callback invocations
performed. The outer `Except` is the exception channel of the runner
itself: a branch that re-raised would return `.error`. -/
def loading (cb : Nat → Except Unit α) (maxRetries retryCount callIdx : Nat) :
    Except Unit (Option α × Nat × Nat) :=
  match cb callIdx with
  | .ok a => .ok (some a, retryCount, callIdx + 1)
  | .error _ =>
    if retryCount ≤ maxRetries then
      loading cb maxRetries (retryCount + 1) (callIdx + 1)
    else
      .ok (none, retryCount, callIdx + 1)
termination_by maxRetries + 1 - retryCount
decreasing_by omega

/-- JSON body of the registry response, as far as
`npmPackageInfo.data["dist-tags"].latest` can observe it:
`distTags = none` means `data["dist-tags"]` is `undefined` (so `.latest`
throws), `distTags = some none` means a `dist-tags` object without a
`latest` key (`.latest` is `undefined`, no throw), and
`distTags = some (some v)` means `latest` is the string `v`. -/
structure NpmBody where
  distTags : Option (Option String)

/-- Outcome of `await axios.get(NPM_URL + name)`: the promise rejects, or
resolves with a body. -/
inductive FetchResult where
  | netError : FetchResult
  | ok : NpmBody → FetchResult

/-- The expression `npmPackageInfo.data["dist-tags"].latest`. -/
def extractLatest (b : NpmBody) : Except Unit (Option String) :=
  match b.distTags with
  | none => .error ()
  | some l => .ok l

/-- The `try` block of `getNpmLatestVersion`: the awaited GET followed by the
field extraction; either step may throw. -/
def tryGetLatest (fetch : String → FetchResult) (name : String) :
    Except Unit (Option String) :=
  match fetch name with
  | .netError => .error ()
  | .ok b => extractLatest b

/-- `getNpmLatestVersion(name)`: returns the resolved version (`none` =
`undefined`) paired with whether the `console.warn` in the `catch` ran. -/
def getNpmLatestVersion (fetch : String → FetchResult) (name : String) :
    Option String × Bool :=
  match tryGetLatest fetch name with
  | .error _ => (none, true)
  | .ok v => (v, false)

/-- `checkVersion(name, version)`: returns whether the two-line update
advisory was printed, i.e. the value of `needUpdate = gt(latestVersion,
version)`. When `getNpmLatestVersion` returned `undefined`, JS default
parameters make `gt` see `"0.0.0"` as its first argument. -/
def checkVersion (fetch : String → FetchResult) (name version : String) : Bool :=
  gt ((getNpmLatestVersion fetch name).1.getD "0.0.0") version

/-! ### Helper lemmas about `loading` -/

/-- A single failed attempt with the budget already exhausted: the runner
returns `undefined` immediately, leaving `retryCount` untouched. -/
theorem loading_fail_exhausted {α : Type} (cb : Nat → Except Unit α)
    (mr rc ci : Nat) (h : cb ci = Except.error ()) (hgt : mr < rc) :
    loading cb mr rc ci = .ok (none, rc, ci + 1) := by
  rw [loading]
  simp only [h]
  rw [if_neg (by omega)]

/-- With an always-failing callback and `retryCount` still within
`maxRetries + 1`, the chain runs the callback `maxRetries + 2 - retryCount`
times and leaves the global counter at `maxRetries + 1`. -/
theorem loading_allFail {α : Type} (cb : Nat → Except Unit α)
    (h : ∀ n, cb n = Except.error ()) (mr : Nat) :
    ∀ d rc ci, mr + 1 - rc = d → rc ≤ mr + 1 →
      loading cb mr rc ci = .ok (none, mr + 1, ci + (mr + 2 - rc)) := by
  intro d
  induction d with
  | zero =>
    intro rc ci hd hle
    have hrc : rc = mr + 1 := by omega
    subst hrc
    rw [loading]
    simp only [h]
    rw [if_neg (by omega)]
    have h1 : mr + 2 - (mr + 1) = 1 := by omega
    rw [h1]
  | succ d ih =>
    intro rc ci hd hle
    have hle2 : rc ≤ mr := by omega
    rw [loading]
    simp only [h]
    rw [if_pos hle2]
    rw [ih (rc + 1) (ci + 1) (by omega) (by omega)]
    have h1 : ci + 1 + (mr + 2 - (rc + 1)) = ci + (mr + 2 - rc) := by omega
    rw [h1]

/-- The runner never returns through its exception channel: every branch of
`loading` produces `.ok`. -/
theorem loading_isOk {α : Type} (cb : Nat → Except Unit α) (mr : Nat) :
    ∀ d rc ci, mr + 1 - rc = d → ∃ out, loading cb mr rc ci = .ok out := by
  intro d
  induction d with
  | zero =>
    intro rc ci hd
    rw [loading]
    cases hcb : cb ci with
    | ok a => exact ⟨_, rfl⟩
    | error e =>
      rw [if_neg (by omega)]
      exact ⟨_, rfl⟩
  | succ d ih =>
    intro rc ci hd
    rw [loading]
    cases hcb : cb ci with
    | ok a => exact ⟨_, rfl⟩
    | error e =>
      by_cases hle : rc ≤ mr
      · rw [if_pos hle]
        exact ih (rc + 1) (ci + 1) (by omega)
      · rw [if_neg hle]
        exact ⟨_, rfl⟩

/-- The global `retryCount` never decreases across a `loading` chain. -/
theorem loading_retryCount_le {α : Type} (cb : Nat → Except Unit α) (mr : Nat) :
    ∀ d rc ci r rc2 k, mr + 1 - rc = d →
      loading cb mr rc ci = .ok (r, rc2, k) → rc ≤ rc2 := by
  intro d
  induction d with
  | zero =>
    intro rc ci r rc2 k hd hl
    rw [loading] at hl
    cases hcb : cb ci with
    | ok a =>
      rw [hcb] at hl
      simp only at hl
      simp only [Except.ok.injEq, Prod.mk.injEq] at hl
      obtain ⟨-, h2, -⟩ := hl
      omega
    | error e =>
      rw [hcb] at hl
      simp only at hl
      rw [if_neg (by omega)] at hl
      simp only [Except.ok.injEq, Prod.mk.injEq] at hl
      obtain ⟨-, h2, -⟩ := hl
      omega
  | succ d ih =>
    intro rc ci r rc2 k hd hl
    rw [loading] at hl
    cases hcb : cb ci with
    | ok a =>
      rw [hcb] at hl
      simp only at hl
      simp only [Except.ok.injEq, Prod.mk.injEq] at hl
      obtain ⟨-, h2, -⟩ := hl
      omega
    | error e =>
      rw [hcb] at hl
      simp only at hl
      by_cases hle : rc ≤ mr
      · rw [if_pos hle] at hl
        exact le_trans (Nat.le_succ rc) (ih (rc + 1) (ci + 1) r rc2 k (by omega) hl)
      · rw [if_neg hle] at hl
        simp only [Except.ok.injEq, Prod.mk.injEq] at hl
        obtain ⟨-, h2, -⟩ := hl
        omega

/-! ### Helper lemmas about `gt` -/

/-- Scanning a list against itself never finds a winning index: an equal
component continues the loop, and a `NaN` component (unequal to itself under
`!==`) loses the `>` comparison. -/
theorem cmpLoop_self : ∀ l, cmpLoop l l = false := by
  intro l
  induction l with
  | nil => rfl
  | cons x xs ih =>
    cases x with
    | none => simp [cmpLoop, jsStrictNe, jsGt]
    | some v => simp [cmpLoop, jsStrictNe, jsGt, ih]

/-- On `NaN`-free tuples the scan of `gt` is exactly strict lexicographic
comparison, most significant first. -/
theorem cmpLoop_map_some :
    ∀ as bs : List Int, cmpLoop (as.map some) (bs.map some) = intLexGt as bs := by
  intro as
  induction as with
  | nil =>
    intro bs
    cases bs <;> rfl
  | cons a as ih =>
    intro bs
    cases bs with
    | nil => rfl
    | cons b bs =>
      by_cases hab : a = b
      · subst hab
        simp [cmpLoop, jsStrictNe, intLexGt, ih bs]
      · simp [cmpLoop, jsStrictNe, jsGt, intLexGt, hab]

/-- The padded tuple always has exactly `len` components. -/
theorem pad_length (len : Nat) (v : String) : (pad len v).length = len := by
  simp only [pad, List.length_take, List.length_append, List.length_map,
    List.length_replicate]
  omega

/-- A tuple of zeros never wins against a tuple whose integer components are
all non-negative (`NaN` components never satisfy `>` either). -/
theorem cmpLoop_zeros :
    ∀ (k : Nat) (l : List (Option Int)),
      l.all (fun x => 0 ≤ x.getD 0) = true →
      cmpLoop (List.replicate k (some 0)) l = false := by
  intro k
  induction k with
  | zero =>
    intro l _
    cases l <;> rfl
  | succ k ih =>
    intro l hl
    cases l with
    | nil => rfl
    | cons b bs =>
      simp only [List.all_cons, Bool.and_eq_true, decide_eq_true_eq] at hl
      obtain ⟨hb, hbs⟩ := hl
      cases b with
      | none => simp [List.replicate_succ, cmpLoop, jsStrictNe, jsGt]
      | some x =>
        by_cases hx : x = 0
        · subst hx
          simp only [List.replicate_succ, cmpLoop, jsStrictNe]
          simp [ih bs (by simpa using hbs)]
        · simp only [Option.getD_some] at hb
          simp only [List.replicate_succ, cmpLoop, jsStrictNe, jsGt]
          have hne : (0 : Int) ≠ x := fun h => hx h.symm
          simp [hne]
          omega

/-- A decimal digit has character code at least 48. -/
theorem digit_toNat_ge (c : Char) (h : c.isDigit = true) : 48 ≤ c.toNat := by
  simp [Char.isDigit] at h
  exact h.1

/-- The folded decimal value stays non-negative from a non-negative
accumulator when every character is a digit. -/
theorem digitsVal_nonneg_aux :
    ∀ (cs : List Char) (acc : Int), 0 ≤ acc → cs.all Char.isDigit = true →
      0 ≤ cs.foldl
        (fun acc c => acc * 10 + ((c.toNat : Int) - ('0'.toNat : Int))) acc := by
  intro cs
  induction cs with
  | nil =>
    intro acc ha _
    simpa using ha
  | cons c cs ih =>
    intro acc ha hall
    simp only [List.all_cons, Bool.and_eq_true] at hall
    obtain ⟨hc, hcs⟩ := hall
    simp only [List.foldl_cons]
    apply ih _ _ hcs
    have h48 := digit_toNat_ge c hc
    have hcast : (48 : Int) ≤ (c.toNat : Int) := by exact_mod_cast h48
    have h0 : ('0'.toNat : Int) = 48 := by decide
    omega

/-- The decimal value of an all-digit segment is non-negative. -/
theorem digitsVal_nonneg (cs : List Char) (h : cs.all Char.isDigit = true) :
    0 ≤ digitsVal cs :=
  digitsVal_nonneg_aux cs 0 le_rfl h

/-- On a possibly empty all-digit segment — the fragment on which the
embedded `toNumber` agrees exactly with JS `Number` — `toNumber` returns
the decimal value, and that value is non-negative. -/
theorem toNumber_digits (seg : List Char) (h : seg.all Char.isDigit = true) :
    toNumber seg = some (digitsVal seg) ∧ 0 ≤ digitsVal seg := by
  constructor
  · cases seg with
    | nil => rfl
    | cons c t =>
      have hc : c.isDigit = true := by
        simp only [List.all_cons, Bool.and_eq_true] at h
        exact h.1
      have hcne : c ≠ '-' := by
        intro he
        rw [he] at hc
        exact absurd hc (by decide)
      simp only [toNumber]
      rw [if_neg hcne, if_pos h]
  · exact digitsVal_nonneg seg h

/-- If every dot-separated segment of `version` is a possibly empty run of
decimal digits, every component of the padded tuple is a non-negative
integer. -/
theorem pad_digits_nonneg (version : String)
    (h : (splitOnDot version.data).all (fun seg => seg.all Char.isDigit) =
      true) :
    (pad 3 version).all (fun x => 0 ≤ x.getD 0) = true := by
  rw [List.all_eq_true]
  intro x hx
  have hx2 : x ∈ (splitOnDot version.data).map toNumber ++
      List.replicate 3 (some 0) :=
    List.take_subset 3 _ hx
  rw [List.mem_append] at hx2
  cases hx2 with
  | inl hmap =>
    rw [List.mem_map] at hmap
    obtain ⟨seg, hseg, rfl⟩ := hmap
    rw [List.all_eq_true] at h
    have hdig := h seg hseg
    obtain ⟨heq, hge⟩ := toNumber_digits seg (by simpa using hdig)
    rw [heq]
    simpa using hge
  | inr hrep =>
    rw [List.eq_of_mem_replicate hrep]
    decide

/-! ### Claim theorems -/

/-- C1: the claim says two `loading` invocations with `maxRetries = 1` and
always-failing callbacks each make exactly 2 attempts, independently. The
code shares the module-level `retryCount` across invocations and compares
with `<=`, so in a fresh process the first invocation makes 3 attempts
(leaving `retryCount = 2`) and a second invocation run afterwards makes
only 1 attempt. This theorem evaluates the code on that failing input. -/
theorem c1_shared_retry_budget_eval :
    loading (fun _ => (Except.error () : Except Unit Nat)) 1 0 0 =
      .ok (none, 2, 3) ∧
    loading (fun _ => (Except.error () : Except Unit Nat)) 1 2 0 =
      .ok (none, 2, 1) := by
  constructor <;> simp [loading]

/-- C2: the claim says a fresh `loading` run with `maxRetries = 2` and an
always-failing callback invokes the callback exactly 3 times. The code
retries while `retryCount <= maxRetries` and increments afterwards, so it
invokes the callback 4 times (leaving `retryCount = 3`) before returning
`undefined`. This theorem evaluates the code on that failing input. -/
theorem c2_fresh_budget_eval :
    loading (fun _ => (Except.error () : Except Unit Nat)) 2 0 0 =
      .ok (none, 3, 4) := by
  simp [loading]

/-- C3: a fresh `loading` run whose callback fails on its first call and
succeeds on its second, with `maxRetries ≥ 1`, returns the success value
and invokes the callback exactly 2 times (final `retryCount` is 1). -/
theorem c3_fail_then_succeed {α : Type} (v : α) (cb : Nat → Except Unit α)
    (maxRetries : Nat) (h0 : cb 0 = Except.error ())
    (h1 : cb 1 = Except.ok v) (hmr : 1 ≤ maxRetries) :
    loading cb maxRetries 0 0 = .ok (some v, 1, 2) := by
  rw [loading]
  simp only [h0]
  rw [if_pos (by omega)]
  rw [loading]
  simp only [h1]

/-- Witness for C3 at a concrete callback that fails once then returns 42,
with `maxRetries = 1`. -/
theorem c3_fail_then_succeed_witness :
    (fun n => if n = 0 then (Except.error () : Except Unit Nat)
      else Except.ok 42) 0 = Except.error () ∧
    (fun n => if n = 0 then (Except.error () : Except Unit Nat)
      else Except.ok 42) 1 = Except.ok 42 ∧
    (1 : Nat) ≤ 1 ∧
    loading (fun n => if n = 0 then (Except.error () : Except Unit Nat)
      else Except.ok 42) 1 0 0 = .ok (some 42, 1, 2) :=
  ⟨rfl, rfl, le_refl 1,
    c3_fail_then_succeed 42 _ 1 rfl rfl (le_refl 1)⟩

/-- C4: `loading` never propagates an exception to its caller — every run
returns through `.ok` for every callback and every state — and with an
always-failing callback a fresh run is silently absorbed, returning
`undefined` after the retry chain. -/
theorem c4_never_throws :
    (∀ (α : Type) (cb : Nat → Except Unit α) (maxRetries rc ci : Nat),
      ∃ out, loading cb maxRetries rc ci = .ok out) ∧
    (∀ (α : Type) (cb : Nat → Except Unit α) (maxRetries : Nat),
      (∀ n, cb n = Except.error ()) →
      loading cb maxRetries 0 0 =
        .ok (none, maxRetries + 1, maxRetries + 2)) := by
  constructor
  · intro α cb mr rc ci
    exact loading_isOk cb mr (mr + 1 - rc) rc ci rfl
  · intro α cb mr h
    have h2 := loading_allFail cb h mr (mr + 1) 0 0 rfl (by omega)
    simpa using h2

/-- Witness for C4: an always-failing callback at `maxRetries = 0`, plus the
no-throw part at an arbitrary state. -/
theorem c4_never_throws_witness :
    (∃ out, loading (fun _ => (Except.error () : Except Unit Nat)) 2 5 7 =
      .ok out) ∧
    (∀ n : Nat, (fun _ => (Except.error () : Except Unit Nat)) n =
      Except.error ()) ∧
    loading (fun _ => (Except.error () : Except Unit Nat)) 0 0 0 =
      .ok (none, 1, 2) :=
  ⟨c4_never_throws.1 Nat _ 2 5 7, fun _ => rfl,
    c4_never_throws.2 Nat _ 0 (fun _ => rfl)⟩

/-- C5 counterexample: a response body whose `dist-tags` object exists but
has no `latest` key makes `getNpmLatestVersion` return `undefined` WITHOUT
logging the warning, refuting the claim that every missing
`dist-tags.latest` logs a warning. -/
theorem c5_counterexample :
    getNpmLatestVersion (fun _ => FetchResult.ok ⟨some none⟩) "chalk" ≠
      (none, true) := by
  decide

/-- C5 amended: `getNpmLatestVersion` never raises past its boundary; it
logs the warning and returns `undefined` exactly when the try block throws
(network failure, or `dist-tags` absent so that `.latest` raises a
TypeError); when the body parses but `dist-tags` lacks `latest` it returns
`undefined` silently, and otherwise it returns the latest version. -/
theorem c5_amended (fetch : String → FetchResult) (name : String) :
    (tryGetLatest fetch name = Except.error () →
      getNpmLatestVersion fetch name = (none, true)) ∧
    (tryGetLatest fetch name = Except.ok none →
      getNpmLatestVersion fetch name = (none, false)) ∧
    (∀ v, tryGetLatest fetch name = Except.ok (some v) →
      getNpmLatestVersion fetch name = (some v, false)) := by
  refine ⟨?_, ?_, ?_⟩
  · intro h
    unfold getNpmLatestVersion
    rw [h]
  · intro h
    unfold getNpmLatestVersion
    rw [h]
  · intro v h
    unfold getNpmLatestVersion
    rw [h]

/-- Witness for C5 amended at a failing fetch. -/
theorem c5_amended_witness :
    tryGetLatest (fun _ => FetchResult.netError) "ora" = Except.error () ∧
    getNpmLatestVersion (fun _ => FetchResult.netError) "ora" =
      (none, true) :=
  ⟨rfl, (c5_amended _ "ora").1 rfl⟩

/-- C6 counterexample: with the registry unreachable (`latestVersion`
`undefined`) and current version `"-1.0.0"`, `checkVersion` DOES print the
advisory: `gt` substitutes its default `"0.0.0"` for the `undefined`
argument and `0 > -1` wins the comparison. -/
theorem c6_counterexample :
    (getNpmLatestVersion (fun _ => FetchResult.netError) "action-cli").1 =
      none ∧
    checkVersion (fun _ => FetchResult.netError) "action-cli" "-1.0.0" =
      true :=
  ⟨rfl, by decide⟩

/-- C6 amended: when the resolver returns a version, the advisory is printed
exactly when `gt latest current` holds; when it returns `undefined`, `gt`
compares its default `"0.0.0"` against the current version, so no advisory
is printed provided every dot-separated segment of the current version is a
possibly empty run of decimal digits — the fragment on which the embedded
segment parser agrees exactly with JS `Number`, covering every canonical
version. A current version with a negative component such as `"-1.0.0"`
can still trigger the advisory. -/
theorem c6_amended (fetch : String → FetchResult) (name version : String) :
    ((getNpmLatestVersion fetch name).1 = none →
      (splitOnDot version.data).all (fun seg => seg.all Char.isDigit) =
        true →
      checkVersion fetch name version = false) ∧
    (∀ v, (getNpmLatestVersion fetch name).1 = some v →
      checkVersion fetch name version = gt v version) := by
  constructor
  · intro hnone hdigits
    unfold checkVersion
    rw [hnone]
    simp only [Option.getD_none]
    unfold gt
    have hp : pad 3 "0.0.0" = List.replicate 3 (some 0) := by decide
    rw [hp]
    exact cmpLoop_zeros 3 (pad 3 version) (pad_digits_nonneg version hdigits)
  · intro v hv
    unfold checkVersion
    rw [hv]
    rfl

/-- Witness for C6 amended: unreachable registry and a digit-only current
version print nothing. -/
theorem c6_amended_witness :
    (getNpmLatestVersion (fun _ => FetchResult.netError) "action-cli").1 =
      none ∧
    (splitOnDot ("1.0.0" : String).data).all
      (fun seg => seg.all Char.isDigit) = true ∧
    checkVersion (fun _ => FetchResult.netError) "action-cli" "1.0.0" =
      false :=
  ⟨rfl, by decide, (c6_amended _ "action-cli" "1.0.0").1 rfl (by decide)⟩

/-- C7: `gt` splits on dots, converts segments to numbers, pads/truncates to
exactly `len` components (zeros for missing segments), and on `NaN`-free
tuples compares numerically and lexicographically most-significant first;
the three quoted examples evaluate as the claim states. -/
theorem c7_gt_numeric_lex :
    (∀ as bs : List Int, cmpLoop (as.map some) (bs.map some) =
      intLexGt as bs) ∧
    (∀ (len : Nat) (v : String), (pad len v).length = len) ∧
    gt "2.0.0" "1.9.9" = true ∧
    gt "1.2" "1.2.0" = false ∧
    gt "10.0.0" "9.0.0" = true :=
  ⟨cmpLoop_map_some, pad_length, by decide, by decide, by decide⟩

/-- C8: on identical inputs `gt` returns false for every string, malformed
segments included: equal components continue the scan, and a `NaN`
component compares unequal to itself but then loses the `>` test. -/
theorem c8_gt_irrefl (a b : String) (len : Nat) (hab : a = b) :
    gt a b len = false := by
  subst hab
  unfold gt
  exact cmpLoop_self (pad len a)

/-- Witness for C8 at a malformed version string. -/
theorem c8_gt_irrefl_witness :
    ("1.2.x" : String) = "1.2.x" ∧ gt "1.2.x" "1.2.x" 3 = false :=
  ⟨rfl, c8_gt_irrefl "1.2.x" "1.2.x" 3 rfl⟩

/-- C9 counterexample: `gt("2.0.0", "x.0.0")` differs from
`gt("2.0.0", "0.0.0")`, refuting the claim that a malformed segment
compares exactly as 0. -/
theorem c9_counterexample :
    ¬ (gt "2.0.0" "x.0.0" = gt "2.0.0" "0.0.0") := by
  decide

/-- C9 amended: a malformed segment parses to `NaN`, not 0, and a `NaN`
component never wins a `>` comparison in either direction, so
`gt("2.0.0", "x.0.0") = false` and `gt("x.0.0", "2.0.0") = false` while
`gt("2.0.0", "0.0.0") = true`; in general `jsGt` only returns true on two
integer components. -/
theorem c9_amended :
    gt "2.0.0" "x.0.0" = false ∧
    gt "x.0.0" "2.0.0" = false ∧
    gt "2.0.0" "0.0.0" = true ∧
    (∀ a b : Option Int, jsGt a b = true →
      ∃ x y : Int, a = some x ∧ b = some y ∧ y < x) := by
  refine ⟨by decide, by decide, by decide, ?_⟩
  intro a b h
  cases a with
  | none => cases b <;> simp [jsGt] at h
  | some x =>
    cases b with
    | none => simp [jsGt] at h
    | some y => exact ⟨x, y, rfl, rfl, by simpa [jsGt] using h⟩

/-- Witness for C9 amended at two integer components. -/
theorem c9_amended_witness :
    jsGt (some (5 : Int)) (some 3) = true ∧
    ∃ x y : Int, some (5 : Int) = some x ∧ some (3 : Int) = some y ∧
      y < x :=
  ⟨by decide, c9_amended.2.2.2 (some 5) (some 3) (by decide)⟩

/-- C10: the module-level `retryCount` never decreases across a `loading`
run, and once it has accumulated `k` failed attempts, any later invocation
with `maxRetries < k` whose callback fails once returns `undefined` after
exactly 1 attempt, performing no retry. -/
theorem c10_global_depletion :
    (∀ (α : Type) (cb : Nat → Except Unit α) (maxRetries rc ci : Nat)
      (r : Option α) (rc2 k : Nat),
      loading cb maxRetries rc ci = .ok (r, rc2, k) → rc ≤ rc2) ∧
    (∀ (α : Type) (cb : Nat → Except Unit α) (maxRetries k : Nat),
      cb 0 = Except.error () → maxRetries < k →
      loading cb maxRetries k 0 = .ok (none, k, 1)) := by
  constructor
  · intro α cb mr rc ci r rc2 k h
    exact loading_retryCount_le cb mr (mr + 1 - rc) rc ci r rc2 k rfl h
  · intro α cb mr k h hk
    exact loading_fail_exhausted cb mr k 0 h hk

/-- Witness for C10: a depleted counter (`retryCount = 5`, `maxRetries = 1`)
gives a single attempt and no retry; monotonicity applied to a concrete
run. -/
theorem c10_global_depletion_witness :
    (loading (fun _ => (Except.error () : Except Unit Nat)) 1 0 0 =
      .ok (none, 2, 3) ∧ (0 : Nat) ≤ 2) ∧
    ((fun _ => (Except.error () : Except Unit Nat)) 0 = Except.error () ∧
      (1 : Nat) < 5 ∧
      loading (fun _ => (Except.error () : Except Unit Nat)) 1 5 0 =
        .ok (none, 5, 1)) :=
  ⟨⟨by simp [loading],
    c10_global_depletion.1 Nat (fun _ => Except.error ()) 1 0 0 none 2 3
      (by simp [loading])⟩,
   rfl, by norm_num,
    c10_global_depletion.2 Nat (fun _ => Except.error ()) 1 5 rfl
      (by norm_num)⟩

end NodeCli
